import Mathlib

/-!
Verification of the fintrack-ocr-proxy upload-relay pipeline.

A shallow embedding of `src/server.js` (an Express OCR proxy):

* `JsValue` models JavaScript/JSON values; `truthy` models JS truthiness and
  `getField` models optional-chained property access (`raw?.text`).
* `normalizeText` embeds the inline normalization block of the
  `POST /api/ocr/receipt` handler (lines 91-96).
* `fileFilterOk` embeds the multer `fileFilter` regex test
  `/image\/(jpeg|png)/i.test(file.mimetype)`.
* `errorHandler` embeds the final Express error-handling middleware.
* `handleUpstreamResponse` embeds the success / upstream-error branches of the
  handler, and `fullRequest` wires the whole request pipeline together,
  recording the outbound upstream calls and the temp-file unlink calls.
-/

set_option autoImplicit false

namespace OcrProxy

/-- JavaScript/JSON values as seen by the handler.  `null` also stands for
`undefined` (both are falsy and both absorb property access). -/
inductive JsValue where
  | null : JsValue
  | bool : Bool → JsValue
  | num  : Int → JsValue
  | str  : String → JsValue
  | arr  : List JsValue → JsValue
  | obj  : List (String × JsValue) → JsValue
  deriving Repr

/-- JS truthiness: `null`/`undefined`, `false`, `0` and `""` are falsy;
every array and object is truthy. -/
def truthy : JsValue → Bool
  | .null   => false
  | .bool b => b
  | .num n  => n != 0
  | .str s  => s != ""
  | .arr _  => true
  | .obj _  => true

/-- First binding of a key in an object's field list (concrete request bodies
have no duplicate keys). -/
def lookupField : List (String × JsValue) → String → JsValue
  | [], _ => .null
  | (k, v) :: rest, key => if k = key then v else lookupField rest key

/-- Optional-chained property access `v?.k`: on a non-object (including
`null`/`undefined`, strings and numbers) the result is `undefined`, modelled
as `.null`; property access never throws. -/
def getField : JsValue → String → JsValue
  | .obj fields, k => lookupField fields k
  | _, _ => .null

/-- One probe step of the normalization block:
`if (!text && v) text = v;`. -/
def step (text v : JsValue) : JsValue :=
  if !(truthy text) && truthy v then v else text

/-- The normalization block of the handler (src/server.js lines 91-96):

```
let text = '';
if (typeof raw === 'string') text = raw;
if (!text && raw?.text) text = raw.text;
if (!text && raw?.data?.text) text = raw.data.text;
if (!text && raw?.result?.text) text = raw.result.text;
if (!text && raw?.data?.data?.text) text = raw.data.data.text;
```
-/
def normalizeText (raw : JsValue) : JsValue :=
  let text := JsValue.str ""
  let text := match raw with
    | JsValue.str s => JsValue.str s
    | _ => text
  let text := step text (getField raw "text")
  let text := step text (getField (getField raw "data") "text")
  let text := step text (getField (getField raw "result") "text")
  let text := step text (getField (getField (getField raw "data") "data") "text")
  text

/-- The spec's probe list (§4.3), in its priority order: the body itself when
it is a plain string, then `body.text`, `body.data.text`, `body.result.text`,
`body.data.data.text`. -/
def specProbes (raw : JsValue) : List JsValue :=
  [(match raw with | JsValue.str s => JsValue.str s | _ => JsValue.null),
   getField raw "text",
   getField (getField raw "data") "text",
   getField (getField raw "result") "text",
   getField (getField (getField raw "data") "data") "text"]

/-- First truthy ("non-empty") element of a probe list, defaulting to the
empty string. -/
def firstTruthy (l : List JsValue) : JsValue :=
  match l.find? truthy with
  | some v => v
  | none => JsValue.str ""

/-- Normalization as the spec words it (§4.3): apply the probes in priority
order, first non-empty result wins, empty string when none matches. -/
def specNormalize (raw : JsValue) : JsValue := firstTruthy (specProbes raw)

/-- Is the value a JS string? -/
def isString : JsValue → Bool
  | .str _ => true
  | _ => false

lemma step_of_truthy {text : JsValue} (h : truthy text = true) (v : JsValue) :
    step text v = text := by
  simp [step, h]

lemma step_null (t : JsValue) : step t JsValue.null = t := by
  simp [step, truthy]

lemma firstTruthy_cons_false {v : JsValue} (h : truthy v = false)
    (l : List JsValue) : firstTruthy (v :: l) = firstTruthy l := by
  simp [firstTruthy, List.find?_cons, h]

lemma chain4 (v1 v2 v3 v4 : JsValue) :
    step (step (step (step (JsValue.str "") v1) v2) v3) v4 =
      firstTruthy [v1, v2, v3, v4] := by
  have h0 : truthy (JsValue.str "") = false := by decide
  cases h1 : truthy v1 <;> cases h2 : truthy v2 <;> cases h3 : truthy v3 <;>
    cases h4 : truthy v4 <;>
    simp [step, firstTruthy, List.find?_cons, h0, h1, h2, h3, h4]

lemma normalizeText_str (s : String) :
    normalizeText (JsValue.str s) = JsValue.str s := by
  show step (step (step (step (JsValue.str s) JsValue.null) JsValue.null)
      JsValue.null) JsValue.null = JsValue.str s
  simp [step_null]

lemma specNormalize_str (s : String) :
    specNormalize (JsValue.str s) = JsValue.str s := by
  by_cases h : s = ""
  · subst h; rfl
  · have hs : truthy (JsValue.str s) = true := by simp [truthy, h]
    simp [specNormalize, specProbes, firstTruthy, List.find?_cons, hs]

/-- The handler's normalization block computes exactly the spec's
priority-ordered first-truthy probe. -/
lemma normalizeText_eq_specNormalize (raw : JsValue) :
    normalizeText raw = specNormalize raw := by
  cases raw with
  | str s => rw [normalizeText_str, specNormalize_str]
  | null => rfl
  | bool b => rfl
  | num n => rfl
  | arr xs => rfl
  | obj fields =>
      have h0 : truthy JsValue.null = false := rfl
      show step (step (step (step (JsValue.str "")
          (getField (JsValue.obj fields) "text"))
          (getField (getField (JsValue.obj fields) "data") "text"))
          (getField (getField (JsValue.obj fields) "result") "text"))
          (getField (getField (getField (JsValue.obj fields) "data") "data")
            "text") =
        firstTruthy (JsValue.null ::
          [getField (JsValue.obj fields) "text",
           getField (getField (JsValue.obj fields) "data") "text",
           getField (getField (JsValue.obj fields) "result") "text",
           getField (getField (getField (JsValue.obj fields) "data") "data")
             "text"])
      rw [chain4, firstTruthy_cons_false h0]

/-! ## Upload validator (multer configuration, src/server.js lines 34-41) -/

/-- Does the lowercase pattern `pat` match at the head of `s`, comparing each
character of `s` lowercased (the `i` flag of the regex)? -/
def matchesAt : List Char → List Char → Bool
  | [], _ => true
  | _ :: _, [] => false
  | p :: ps, c :: cs => (c.toLower == p) && matchesAt ps cs

/-- The regex test `/image\/(jpeg|png)/i.test(s)`: scan every position of `s`
for a case-insensitive occurrence of `image/jpeg` or `image/png`. -/
def regexImageTest : List Char → Bool
  | [] => false
  | c :: cs =>
      matchesAt "image/jpeg".toList (c :: cs) ||
      matchesAt "image/png".toList (c :: cs) ||
      regexImageTest cs

/-- The multer `fileFilter` decision:
`/image\/(jpeg|png)/i.test(file.mimetype)`. -/
def fileFilterOk (mimetype : String) : Bool :=
  regexImageTest mimetype.toList

/-- The spec's wording (§4.1): the lowercased declared MIME type contains
`pat` as a contiguous substring. -/
def containsLowered (pat : List Char) (s : String) : Prop :=
  ∃ u t, u ++ pat ++ t = s.toList.map Char.toLower

lemma matchesAt_iff (pat : List Char) (s : List Char) :
    matchesAt pat s = true ↔ ∃ t, pat ++ t = s.map Char.toLower := by
  induction pat generalizing s with
  | nil => simp [matchesAt]
  | cons p ps ih =>
      cases s with
      | nil => simp [matchesAt]
      | cons c cs =>
          simp only [matchesAt, List.map_cons, Bool.and_eq_true, beq_iff_eq,
            ih, List.cons_append, List.cons.injEq]
          constructor
          · rintro ⟨hc, t, ht⟩
            exact ⟨t, hc.symm, ht⟩
          · rintro ⟨t, hc, ht⟩
            exact ⟨hc.symm, t, ht⟩

lemma exists_append_cons_iff (pat : List Char) (c : Char) (l : List Char) :
    (∃ u t, u ++ pat ++ t = c :: l) ↔
      (∃ t, pat ++ t = c :: l) ∨ (∃ u t, u ++ pat ++ t = l) := by
  constructor
  · rintro ⟨u, t, h⟩
    cases u with
    | nil => exact Or.inl ⟨t, by simpa using h⟩
    | cons a u' =>
        right
        refine ⟨u', t, ?_⟩
        have h' := h
        simp only [List.cons_append, List.cons.injEq] at h'
        exact h'.2
  · rintro (⟨t, h⟩ | ⟨u, t, h⟩)
    · exact ⟨[], t, by simpa using h⟩
    · exact ⟨c :: u, t, by simp [← h]⟩

lemma or_shuffle (A B C D : Prop) :
    ((A ∨ B) ∨ (C ∨ D)) ↔ ((A ∨ C) ∨ (B ∨ D)) := by
  tauto

lemma regexImageTest_iff (s : List Char) :
    regexImageTest s = true ↔
      (∃ u t, u ++ "image/jpeg".toList ++ t = s.map Char.toLower) ∨
      (∃ u t, u ++ "image/png".toList ++ t = s.map Char.toLower) := by
  induction s with
  | nil =>
      constructor
      · intro h; cases h
      · rintro (⟨u, t, h⟩ | ⟨u, t, h⟩) <;> simp at h
  | cons c cs ih =>
      simp only [regexImageTest, Bool.or_eq_true, matchesAt_iff, ih,
        List.map_cons, exists_append_cons_iff]
      exact or_shuffle _ _ _ _

/-- The filter `fileFilterOk` admits exactly the MIME types whose lowercasing
contains `image/jpeg` or `image/png` as a substring. -/
lemma fileFilterOk_iff (m : String) :
    fileFilterOk m = true ↔
      containsLowered "image/jpeg".toList m ∨
      containsLowered "image/png".toList m := by
  exact regexImageTest_iff m.toList

/-! ## The request pipeline -/

/-- The metadata of one uploaded file as multer hands it to the route handler
(`req.file`). -/
structure UploadedFile where
  path : String
  originalname : String
  mimetype : String
  size : Nat
  deriving Repr

/-- A response the upstream OCR provider returned over the network.  `status`
is `none` when the response carries no status (the handler's
`resp.status || 502` default covers it). -/
structure UpstreamResp where
  status : Option Nat
  data : JsValue
  deriving Repr

/-- Outcome of the `axios.post` call: either a response of any status
(`validateStatus: () => true` lets every status resolve) or a network-level
failure that rejects the promise and lands in the `catch` block. -/
inductive UpstreamResult where
  | response : UpstreamResp → UpstreamResult
  | netError : String → UpstreamResult
  deriving Repr

/-- One inbound HTTP request as the pipeline sees it.  `unlinkThrows` says
whether the `fs.unlinkSync` call in the `finally` block would throw. -/
structure Request where
  file : Option UploadedFile
  upstream : UpstreamResult
  unlinkThrows : Bool
  deriving Repr

/-- Process-wide configuration read from the environment at startup. -/
structure Config where
  envKey : Option String
  maxMB : Nat
  deriving Repr

/-- An HTTP response decided by the server. -/
structure HttpResponse where
  status : Nat
  body : JsValue
  deriving Repr

/-- One part of the multipart body sent upstream via `form.append`. -/
structure FormPart where
  field : String
  filename : String
  contentType : String
  deriving Repr, DecidableEq

/-- One outbound call to the upstream provider: the `apikey` header value and
the multipart form it carried. -/
structure SentRequest where
  apikeyHeader : String
  form : List FormPart
  deriving Repr, DecidableEq

/-- Everything observable about one processed request: the HTTP response, the
upstream calls made, and the number of `fs.unlinkSync` calls. -/
structure FullResult where
  response : HttpResponse
  sent : List SentRequest
  unlinkCalls : Nat
  deriving Repr

/-- JS whitespace trimmed by `String.prototype.trim` (the characters relevant
to configuration values). -/
def isJsSpace (c : Char) : Bool :=
  c == ' ' || c == '\t' || c == '\n' || c == '\r'

/-- JS `s.trim()`. -/
def jsTrim (s : String) : String :=
  String.mk (((s.data.dropWhile isJsSpace).reverse.dropWhile isJsSpace).reverse)

/-- Line 20: `const KEY = (process.env.IAPP_API_KEY || '').trim();`. -/
def keyFromEnv (env : Option String) : String :=
  jsTrim (env.getD "")

/-- The response body `{ ok: false, error: <msg> }`. -/
def jsonError (msg : String) : JsValue :=
  JsValue.obj [("ok", JsValue.bool false), ("error", JsValue.str msg)]

/-- An error value travelling through Express (`next(err)` / multer errors). -/
structure JsError where
  code : Option String
  message : String
  deriving Repr

/-- List-level embedding of `err.message.startsWith(prefixStr)`. -/
def strStartsWith (s pre : String) : Bool :=
  pre.toList.isPrefixOf s.toList

/-- The final Express error-handling middleware (lines 115-124):
`LIMIT_FILE_SIZE` → 413, messages starting with `Unsupported file type` → 400,
anything else → 500 with the error's message (or a generic fallback when the
message is falsy). -/
def errorHandler (maxMB : Nat) (e : JsError) : HttpResponse :=
  if e.code = some "LIMIT_FILE_SIZE" then
    ⟨413, jsonError ("File too large (>" ++ toString maxMB ++ "MB)")⟩
  else if strStartsWith e.message "Unsupported file type" then
    ⟨400, jsonError e.message⟩
  else
    ⟨500, jsonError (if e.message != "" then e.message else "Internal Server Error")⟩

/-- Outcome of multer's per-file processing: `fileFilter` runs when the file
part's headers arrive, so a filter rejection aborts the request before the
`limits.fileSize` check (which only fires while the content streams) can. -/
inductive MulterOutcome where
  | accepted
  | typeRejected
  | sizeRejected
  deriving Repr, DecidableEq

/-- multer with `fileFilter` and `limits: { fileSize: MAX_MB * 1024 * 1024 }`
(lines 34-41) applied to one uploaded file. -/
def multerCheck (cfg : Config) (f : UploadedFile) : MulterOutcome :=
  if fileFilterOk f.mimetype = false then .typeRejected
  else if f.size > cfg.maxMB * 1024 * 1024 then .sizeRejected
  else .accepted

/-- The interpolation `${resp.status}` of the fallback error template. -/
def statusText : Option Nat → String
  | some s => toString s
  | none => "undefined"

/-- The test `resp.status >= 200 && resp.status < 300` (line 87); an absent
status compares false. -/
def is2xx : Option Nat → Bool
  | some s => 200 ≤ s && s < 300
  | none => false

/-- The fallback `resp.status || 502` (line 102): an absent (or zero, both
falsy) status falls back to 502. -/
def statusOr502 : Option Nat → Nat
  | some s => if s = 0 then 502 else s
  | none => 502

/-- The 2xx branch (lines 87-98): respond 200 with
`{ ok: true, data: { text, raw } }`. -/
def successResponse (r : UpstreamResp) : HttpResponse :=
  ⟨200, JsValue.obj [("ok", JsValue.bool true),
     ("data", JsValue.obj [("text", normalizeText r.data), ("raw", r.data)])]⟩

/-- The upstream-error branch (lines 101-105): pass the upstream status
through (`|| 502`), body `{ ok: false, error: resp.data || 'Upstream error:
...' }`. -/
def upstreamErrorResponse (r : UpstreamResp) : HttpResponse :=
  ⟨statusOr502 r.status,
   JsValue.obj [("ok", JsValue.bool false),
     ("error", if truthy r.data then r.data
               else JsValue.str ("Upstream error: " ++ statusText r.status))]⟩

/-- Classification of an upstream response by status (lines 87-105). -/
def handleUpstreamResponse (r : UpstreamResp) : HttpResponse :=
  if is2xx r.status then successResponse r else upstreamErrorResponse r

/-- The multipart body built by `form.append('file', ..., { filename:
req.file.originalname || 'receipt.jpg', contentType: req.file.mimetype ||
'image/jpeg' })` (lines 70-73): a single file field with JS `||` fallbacks
for falsy (empty) names. -/
def buildForm (f : UploadedFile) : List FormPart :=
  [⟨"file",
    if f.originalname != "" then f.originalname else "receipt.jpg",
    if f.mimetype != "" then f.mimetype else "image/jpeg"⟩]

/-- The `finally` cleanup (line 110):
`try { if (tempPath && fs.existsSync(tempPath)) fs.unlinkSync(tempPath); }
catch {}` — returns the number of `unlinkSync` calls and whether an exception
escaped the `try`. -/
def tryUnlink (tempExists unlinkThrows : Bool) : Nat × Bool :=
  if tempExists then (1, unlinkThrows) else (0, false)

/-- The `catch {}` around the unlink swallows any exception: only the call
count remains observable; nothing escapes to override the response. -/
def cleanupCalls (tempExists unlinkThrows : Bool) : Nat :=
  (tryUnlink tempExists unlinkThrows).1

/-- The whole `POST /api/ocr/receipt` pipeline for one request: multer runs
first (file filter, then size limit); the route handler then guards against a
missing file, relays the file upstream with the configured `apikey` header,
classifies the upstream outcome (the `catch` routes thrown errors to the
error middleware), and the `finally` block unlinks the temp file. -/
def fullRequest (cfg : Config) (req : Request) : FullResult :=
  match req.file with
  | none =>
      { response := ⟨400, jsonError "No file uploaded (field name must be \x22file\x22)"⟩,
        sent := [], unlinkCalls := 0 }
  | some f =>
      match multerCheck cfg f with
      | .typeRejected =>
          { response := errorHandler cfg.maxMB
              ⟨none, "Unsupported file type: only jpg/jpeg/png allowed"⟩,
            sent := [], unlinkCalls := 0 }
      | .sizeRejected =>
          { response := errorHandler cfg.maxMB ⟨some "LIMIT_FILE_SIZE", "File too large"⟩,
            sent := [], unlinkCalls := 0 }
      | .accepted =>
          let response :=
            match req.upstream with
            | .response r => handleUpstreamResponse r
            | .netError e => errorHandler cfg.maxMB ⟨none, e⟩
          { response := response,
            sent := [⟨keyFromEnv cfg.envKey, buildForm f⟩],
            unlinkCalls := cleanupCalls true req.unlinkThrows }

lemma fullRequest_eq_of_accepted (cfg : Config) (req : Request)
    (f : UploadedFile) (hf : req.file = some f)
    (hacc : multerCheck cfg f = .accepted) :
    fullRequest cfg req =
      { response := (match req.upstream with
          | .response r => handleUpstreamResponse r
          | .netError e => errorHandler cfg.maxMB ⟨none, e⟩),
        sent := [⟨keyFromEnv cfg.envKey, buildForm f⟩],
        unlinkCalls := 1 } := by
  simp [fullRequest, hf, hacc, cleanupCalls, tryUnlink]

/-! ## Concrete fixtures used by the witnesses and counterexamples -/

/-- A configuration with an API key configured and the default 10 MB limit. -/
def cfg0 : Config := { envKey := some "secret-key", maxMB := 10 }

/-- A configuration with no `IAPP_API_KEY` in the environment. -/
def cfgNoKey : Config := { envKey := none, maxMB := 10 }

/-- A small, admissible PNG upload. -/
def file0 : UploadedFile :=
  { path := "uploads/tmp0", originalname := "receipt1.png",
    mimetype := "image/png", size := 2048 }

/-- A 2xx upstream response carrying a `text` field. -/
def resp200 : UpstreamResp :=
  { status := some 200, data := JsValue.obj [("text", JsValue.str "hello")] }

/-- A request with an admissible file whose upstream call succeeds. -/
def req200 : Request :=
  { file := some file0, upstream := .response resp200, unlinkThrows := false }

/-- A 500 upstream response whose body is the empty string (falsy). -/
def respEmpty500 : UpstreamResp := { status := some 500, data := JsValue.str "" }

/-- A request whose upstream call returns status 500 with an empty body. -/
def reqEmptyBody500 : Request :=
  { file := some file0, upstream := .response respEmpty500, unlinkThrows := false }

/-- A 404 upstream response with a truthy JSON body. -/
def respBoom404 : UpstreamResp :=
  { status := some 404, data := JsValue.obj [("msg", JsValue.str "boom")] }

/-- A request whose upstream call returns 404 with body `{"msg":"boom"}`. -/
def req404 : Request :=
  { file := some file0, upstream := .response respBoom404, unlinkThrows := false }

/-- A small upload with a rejected MIME type. -/
def fileBadType : UploadedFile :=
  { path := "uploads/tmp1", originalname := "doc.pdf",
    mimetype := "application/pdf", size := 2048 }

/-- A request uploading `fileBadType`. -/
def reqBadType : Request :=
  { file := some fileBadType, upstream := .response resp200, unlinkThrows := false }

/-- An 11 MB upload whose MIME type is also rejected. -/
def fileOversizeBadType : UploadedFile :=
  { path := "uploads/tmp2", originalname := "big.txt",
    mimetype := "text/plain", size := 11 * 1024 * 1024 }

/-- A request uploading `fileOversizeBadType`. -/
def reqOversizeBadType : Request :=
  { file := some fileOversizeBadType, upstream := .response resp200,
    unlinkThrows := false }

/-- An 11 MB upload of an admissible MIME type. -/
def fileOversizePng : UploadedFile :=
  { path := "uploads/tmp3", originalname := "big.png",
    mimetype := "image/png", size := 11 * 1024 * 1024 }

/-- A request uploading `fileOversizePng`. -/
def reqOversizePng : Request :=
  { file := some fileOversizePng, upstream := .response resp200,
    unlinkThrows := false }

/-- An admissible PNG upload whose original filename is empty (falsy). -/
def fileNoName : UploadedFile :=
  { path := "uploads/tmp4", originalname := "", mimetype := "image/png",
    size := 2048 }

/-- A request uploading `fileNoName`. -/
def reqNoName : Request :=
  { file := some fileNoName, upstream := .response resp200, unlinkThrows := false }

/-! ## The claims -/

/-- Claim C1: the normalized text is computed by probing in exactly the
priority order (body itself when a plain string, `body.text`,
`body.data.text`, `body.result.text`, `body.data.data.text`), first
non-empty (truthy) result winning, with the empty string when no probe
matches; and the six round-trip examples of the spec hold. -/
theorem normalization_probe_order :
    (∀ raw, normalizeText raw = specNormalize raw) ∧
    normalizeText (JsValue.obj [("text", JsValue.str "A")]) = JsValue.str "A" ∧
    normalizeText (JsValue.obj [("data", JsValue.obj [("text", JsValue.str "B")])]) =
      JsValue.str "B" ∧
    normalizeText (JsValue.obj [("result", JsValue.obj [("text", JsValue.str "C")])]) =
      JsValue.str "C" ∧
    normalizeText (JsValue.obj [("data", JsValue.obj [("data",
      JsValue.obj [("text", JsValue.str "D")])])]) = JsValue.str "D" ∧
    normalizeText (JsValue.obj []) = JsValue.str "" ∧
    normalizeText (JsValue.str "E") = JsValue.str "E" :=
  ⟨normalizeText_eq_specNormalize, rfl, rfl, rfl, rfl, rfl, rfl⟩

/-- Claim C2, counterexample: an upstream 500 whose body is the empty string
is NOT passed through verbatim — the handler's `resp.data || ...` fallback
replaces the falsy body with the string `Upstream error: 500`. -/
theorem upstream_error_falsy_body_rewritten :
    (fullRequest cfg0 reqEmptyBody500).response.status = 500 ∧
    getField (fullRequest cfg0 reqEmptyBody500).response.body "error" =
      JsValue.str "Upstream error: 500" ∧
    JsValue.str "Upstream error: 500" ≠ JsValue.str "" := by
  refine ⟨rfl, rfl, ?_⟩
  intro h
  injection h with h2
  exact absurd h2 (by decide)

/-- Claim C2, amended: for a non-2xx upstream response the client receives
the upstream status when it is present and nonzero (502 when absent), with
`ok:false`; the upstream body is passed through verbatim when it is truthy,
and a falsy body (empty string, null, 0, false) is replaced by the template
string `Upstream error: <status>`. -/
theorem upstream_error_passthrough (cfg : Config) (req : Request)
    (f : UploadedFile) (r : UpstreamResp) (s : Nat)
    (hf : req.file = some f) (hacc : multerCheck cfg f = .accepted)
    (hup : req.upstream = .response r) (h2 : is2xx r.status = false) :
    getField (fullRequest cfg req).response.body "ok" = JsValue.bool false ∧
    (r.status = some s → s ≠ 0 → (fullRequest cfg req).response.status = s) ∧
    (r.status = none → (fullRequest cfg req).response.status = 502) ∧
    (truthy r.data = true →
      getField (fullRequest cfg req).response.body "error" = r.data) ∧
    (truthy r.data = false →
      getField (fullRequest cfg req).response.body "error" =
        JsValue.str ("Upstream error: " ++ statusText r.status)) := by
  rw [fullRequest_eq_of_accepted cfg req f hf hacc, hup]
  simp only [handleUpstreamResponse, h2, if_false, Bool.false_eq_true]
  refine ⟨rfl, ?_, ?_, ?_, ?_⟩
  · intro hs hs0
    simp [upstreamErrorResponse, statusOr502, hs, hs0]
  · intro hs
    simp [upstreamErrorResponse, statusOr502, hs]
  · intro ht
    show getField (JsValue.obj [("ok", JsValue.bool false),
      ("error", if truthy r.data then r.data
                else JsValue.str ("Upstream error: " ++ statusText r.status))])
      "error" = r.data
    rw [ht]
    rfl
  · intro ht
    show getField (JsValue.obj [("ok", JsValue.bool false),
      ("error", if truthy r.data then r.data
                else JsValue.str ("Upstream error: " ++ statusText r.status))])
      "error" = _
    rw [ht]
    rfl

/-- Claim C2 witness: upstream 404 with truthy body `{"msg":"boom"}` comes
back as status 404, `ok:false`, and the body verbatim. -/
theorem upstream_error_passthrough_witness :
    getField (fullRequest cfg0 req404).response.body "ok" = JsValue.bool false ∧
    (fullRequest cfg0 req404).response.status = 404 ∧
    getField (fullRequest cfg0 req404).response.body "error" =
      JsValue.obj [("msg", JsValue.str "boom")] := by
  have h := upstream_error_passthrough cfg0 req404 file0 respBoom404 404
    rfl rfl rfl (by decide)
  exact ⟨h.1, h.2.1 rfl (by decide), h.2.2.2.1 (by decide)⟩

/-- Claim C3: once a temp file is materialized (multer accepted the file and
the handler runs), `fs.unlinkSync` is called exactly once — on the success,
upstream-error, and transport-failure/thrown branches alike (the upstream
outcome is universally quantified here) — and whether the unlink itself
throws never changes the already-decided HTTP response (the `catch {}`
swallows it). -/
theorem temp_cleanup_exactly_once (cfg : Config) (req : Request)
    (f : UploadedFile) (b : Bool)
    (hf : req.file = some f) (hacc : multerCheck cfg f = .accepted) :
    (fullRequest cfg req).unlinkCalls = 1 ∧
    (fullRequest cfg { req with unlinkThrows := b }).response =
      (fullRequest cfg req).response := by
  have hf2 : ({ req with unlinkThrows := b } : Request).file = some f := hf
  rw [fullRequest_eq_of_accepted cfg req f hf hacc,
    fullRequest_eq_of_accepted cfg { req with unlinkThrows := b } f hf2 hacc]
  exact ⟨rfl, rfl⟩

/-- Claim C3 witness: on the concrete success request the unlink happens once
and a throwing unlink leaves the response unchanged. -/
theorem temp_cleanup_exactly_once_witness :
    (fullRequest cfg0 req200).unlinkCalls = 1 ∧
    (fullRequest cfg0 { req200 with unlinkThrows := true }).response =
      (fullRequest cfg0 req200).response :=
  temp_cleanup_exactly_once cfg0 req200 file0 true rfl rfl

/-- Claim C4: the multer file filter admits a file iff its declared MIME type
contains `image/jpeg` or `image/png` as a case-insensitive substring, and a
type rejection yields a 400 response with no upstream call made. -/
theorem mime_filter_iff_substring (cfg : Config) (req : Request)
    (f : UploadedFile) (hf : req.file = some f) :
    (fileFilterOk f.mimetype = true ↔
      containsLowered "image/jpeg".toList f.mimetype ∨
      containsLowered "image/png".toList f.mimetype) ∧
    (fileFilterOk f.mimetype = false →
      (fullRequest cfg req).response.status = 400 ∧
      (fullRequest cfg req).sent = []) := by
  refine ⟨fileFilterOk_iff f.mimetype, ?_⟩
  intro hrej
  have hm : multerCheck cfg f = .typeRejected := by
    simp [multerCheck, hrej]
  have heq : fullRequest cfg req =
      { response := errorHandler cfg.maxMB
          ⟨none, "Unsupported file type: only jpg/jpeg/png allowed"⟩,
        sent := [], unlinkCalls := 0 } := by
    simp [fullRequest, hf, hm]
  rw [heq]
  exact ⟨rfl, rfl⟩

/-- Claim C4 witness: an `application/pdf` upload is rejected with 400 and no
upstream call. -/
theorem mime_filter_iff_substring_witness :
    (fullRequest cfg0 reqBadType).response.status = 400 ∧
    (fullRequest cfg0 reqBadType).sent = [] :=
  (mime_filter_iff_substring cfg0 reqBadType fileBadType rfl).2 (by decide)

/-- Claim C5, counterexample: an upload exceeding the size limit whose MIME
type is also rejected gets 400 from the type filter (which multer runs when
the file part arrives, before the streaming size limit can fire), not 413. -/
theorem oversize_wrong_type_gets_400 :
    fileOversizeBadType.size > cfg0.maxMB * 1024 * 1024 ∧
    (fullRequest cfg0 reqOversizeBadType).response.status = 400 ∧
    (400 : Nat) ≠ 413 := ⟨by decide, rfl, by decide⟩

/-- Claim C5, amended: an upload whose size exceeds `MAX_FILE_SIZE_MB`
megabytes never reaches the upstream call, and when its MIME type is
admitted by the file filter it is rejected with 413 (with no temp-file
cleanup by the handler). -/
theorem oversize_rejected_413_no_upstream (cfg : Config) (req : Request)
    (f : UploadedFile) (hf : req.file = some f)
    (hsize : f.size > cfg.maxMB * 1024 * 1024) :
    (fullRequest cfg req).sent = [] ∧
    (fileFilterOk f.mimetype = true →
      (fullRequest cfg req).response.status = 413 ∧
      (fullRequest cfg req).unlinkCalls = 0) := by
  cases hfilter : fileFilterOk f.mimetype with
  | false =>
      have hm : multerCheck cfg f = .typeRejected := by
        simp [multerCheck, hfilter]
      have heq : fullRequest cfg req =
          { response := errorHandler cfg.maxMB
              ⟨none, "Unsupported file type: only jpg/jpeg/png allowed"⟩,
            sent := [], unlinkCalls := 0 } := by
        simp [fullRequest, hf, hm]
      rw [heq]
      refine ⟨rfl, ?_⟩
      intro h
      exact absurd h (by decide)
  | true =>
      have hm : multerCheck cfg f = .sizeRejected := by
        simp [multerCheck, hfilter, hsize]
      have heq : fullRequest cfg req =
          { response := errorHandler cfg.maxMB
              ⟨some "LIMIT_FILE_SIZE", "File too large"⟩,
            sent := [], unlinkCalls := 0 } := by
        simp [fullRequest, hf, hm]
      rw [heq]
      exact ⟨rfl, fun _ => ⟨rfl, rfl⟩⟩

/-- Claim C5 witness: an 11 MB PNG is rejected with 413, no upstream call. -/
theorem oversize_rejected_413_no_upstream_witness :
    (fullRequest cfg0 reqOversizePng).sent = [] ∧
    (fullRequest cfg0 reqOversizePng).response.status = 413 ∧
    (fullRequest cfg0 reqOversizePng).unlinkCalls = 0 := by
  have h := oversize_rejected_413_no_upstream cfg0 reqOversizePng
    fileOversizePng rfl (by decide)
  exact ⟨h.1, h.2 (by decide)⟩

/-- Claim C6: when no `file` part is present the handler answers 400
immediately; no upstream call is made and no temp-file cleanup runs. -/
theorem missing_file_skips_pipeline (cfg : Config) (up : UpstreamResult)
    (b : Bool) :
    fullRequest cfg { file := none, upstream := up, unlinkThrows := b } =
      { response := ⟨400, jsonError "No file uploaded (field name must be \x22file\x22)"⟩,
        sent := [], unlinkCalls := 0 } := rfl

/-- Claim C7: every 2xx upstream response is answered with status 200 and
body `{ ok: true, data: { text, raw } }`, where `raw` is the upstream body
unchanged and `text` its normalization. -/
theorem success_branch_response_shape (cfg : Config) (req : Request)
    (f : UploadedFile) (r : UpstreamResp) (hf : req.file = some f)
    (hacc : multerCheck cfg f = .accepted)
    (hup : req.upstream = .response r) (h2 : is2xx r.status = true) :
    (fullRequest cfg req).response =
      ⟨200, JsValue.obj [("ok", JsValue.bool true),
        ("data", JsValue.obj [("text", normalizeText r.data), ("raw", r.data)])]⟩ := by
  rw [fullRequest_eq_of_accepted cfg req f hf hacc, hup]
  show handleUpstreamResponse r = _
  simp only [handleUpstreamResponse, h2, if_true]
  rfl

/-- Claim C7 witness: the concrete 200 response round-trips. -/
theorem success_branch_response_shape_witness :
    (fullRequest cfg0 req200).response =
      ⟨200, JsValue.obj [("ok", JsValue.bool true),
        ("data", JsValue.obj [("text", normalizeText resp200.data),
          ("raw", resp200.data)])]⟩ :=
  success_branch_response_shape cfg0 req200 file0 resp200 rfl rfl rfl (by decide)

/-- Claim C8, counterexample: a relayed upload whose original filename is
empty (falsy) is sent upstream with the fallback filename `receipt.jpg`, not
with the client's filename unchanged. -/
theorem form_filename_fallback :
    (fullRequest cfg0 reqNoName).sent.map SentRequest.form =
      [[⟨"file", "receipt.jpg", "image/png"⟩]] ∧
    "receipt.jpg" ≠ fileNoName.originalname := ⟨rfl, by decide⟩

/-- Claim C8, amended: every relayed upload sends exactly one multipart file
field named `file`; its filename equals the client's original filename and
its content type the declared type whenever those are non-empty (truthy),
and a falsy original filename falls back to `receipt.jpg`. -/
theorem form_propagates_when_truthy (cfg : Config) (req : Request)
    (f : UploadedFile) (hf : req.file = some f)
    (hacc : multerCheck cfg f = .accepted) :
    (fullRequest cfg req).sent.map SentRequest.form = [buildForm f] ∧
    (buildForm f).length = 1 ∧
    ((buildForm f).headD ⟨"", "", ""⟩).field = "file" ∧
    (f.originalname ≠ "" →
      ((buildForm f).headD ⟨"", "", ""⟩).filename = f.originalname) ∧
    (f.mimetype ≠ "" →
      ((buildForm f).headD ⟨"", "", ""⟩).contentType = f.mimetype) ∧
    (f.originalname = "" →
      ((buildForm f).headD ⟨"", "", ""⟩).filename = "receipt.jpg") := by
  rw [fullRequest_eq_of_accepted cfg req f hf hacc]
  refine ⟨rfl, rfl, rfl, ?_, ?_, ?_⟩
  · intro h
    simp [buildForm, h]
  · intro h
    simp [buildForm, h]
  · intro h
    simp [buildForm, h]

/-- Claim C8 witness: a non-empty filename and content type propagate
unchanged on the concrete request. -/
theorem form_propagates_when_truthy_witness :
    (fullRequest cfg0 req200).sent.map SentRequest.form = [buildForm file0] ∧
    ((buildForm file0).headD ⟨"", "", ""⟩).filename = "receipt1.png" ∧
    ((buildForm file0).headD ⟨"", "", ""⟩).contentType = "image/png" := by
  have h := form_propagates_when_truthy cfg0 req200 file0 rfl rfl
  exact ⟨h.1, h.2.2.2.1 (by decide), h.2.2.2.2.1 (by decide)⟩

/-- Claim C9, counterexample: on the body `{"text": 1}` normalization returns
the number `1` itself — not a string — because the probe only tests
truthiness, not stringness. -/
theorem normalize_result_not_always_string :
    isString (normalizeText (JsValue.obj [("text", JsValue.num 1)])) = false := rfl

/-- Claim C9, amended: normalization is total (never throws) on every body,
and its result is a string provided every truthy probed value is a string;
when no probe is truthy the result is exactly the empty string. -/
theorem normalize_total_and_stringish (raw : JsValue)
    (h : ∀ v ∈ specProbes raw, truthy v = true → isString v = true) :
    isString (normalizeText raw) = true ∧
    (((specProbes raw).all fun v => !(truthy v)) = true →
      normalizeText raw = JsValue.str "") := by
  rw [normalizeText_eq_specNormalize]
  constructor
  · unfold specNormalize firstTruthy
    cases hfind : (specProbes raw).find? truthy with
    | none => rfl
    | some v =>
        exact h v (List.mem_of_find?_eq_some hfind) (List.find?_some hfind)
  · intro hall
    have hnone : (specProbes raw).find? truthy = none := by
      rw [List.find?_eq_none]
      intro x hx
      have hx2 := List.all_eq_true.mp hall x hx
      simp only [Bool.not_eq_true'] at hx2
      simp [hx2]
    unfold specNormalize firstTruthy
    rw [hnone]

/-- Claim C9 witness: a nested string body normalizes to a string. -/
theorem normalize_total_and_stringish_witness :
    isString (normalizeText
      (JsValue.obj [("data", JsValue.obj [("text", JsValue.str "B")])])) = true :=
  (normalize_total_and_stringish
    (JsValue.obj [("data", JsValue.obj [("text", JsValue.str "B")])])
    (by decide)).1

/-- Claim C10: with no `IAPP_API_KEY` in the environment the relay still
performs the upstream request, sending the `apikey` header with the empty
string as its value — the missing key is never turned into a local error
before the call. -/
theorem absent_key_sends_empty_header (cfg : Config) (req : Request)
    (f : UploadedFile) (hkey : cfg.envKey = none) (hf : req.file = some f)
    (hacc : multerCheck cfg f = .accepted) :
    (fullRequest cfg req).sent = [⟨"", buildForm f⟩] := by
  rw [fullRequest_eq_of_accepted cfg req f hf hacc]
  have hk : keyFromEnv cfg.envKey = "" := by rw [hkey]; rfl
  rw [hk]

/-- Claim C10 witness: the concrete key-less configuration still relays with
an empty `apikey` header. -/
theorem absent_key_sends_empty_header_witness :
    (fullRequest cfgNoKey req200).sent = [⟨"", buildForm file0⟩] :=
  absent_key_sends_empty_header cfgNoKey req200 file0 rfl rfl rfl

end OcrProxy
